import Mathlib

/-!
Verification of the benchmark orchestration and regression-comparison engine
of scripts/perf-test.py (semfora-engine). The Python source is shallowly
embedded: wall-clock durations are exact rationals, the external subprocess
that a trial runs is modelled by its observable outcome (`ProcOutcome`),
and Python dataclasses become Lean structures. Floating point `round` is
modelled as exact round-half-to-even on rationals (Python's rounding mode),
and `statistics.stdev` as the real square root of the sample variance.
-/

set_option maxRecDepth 8000

namespace PerfTest

/-- Observable outcome of one external-process invocation, as seen by
`run_with_timing`: the process completed (with its measured elapsed time,
exit code, stdout and stderr), it hit the timeout (`subprocess.TimeoutExpired`),
or launching/running it raised some other exception after an elapsed time. -/
inductive ProcOutcome
  | completed (elapsed : ℚ) (exitCode : ℤ) (stdout stderr : String)
  | timedOut
  | faulted (elapsed : ℚ) (errMsg : String)
deriving DecidableEq

/-- Embedding of `run_with_timing` (perf-test.py lines 238-254): returns
`(duration_seconds, success, output)`. On normal completion the duration is
the measured elapsed time, success is `returncode == 0`, output is
`stdout + stderr`. On `TimeoutExpired` it returns `(timeout, False, "Timeout")`.
On any other exception it returns the elapsed time so far, `False`, and the
stringified error. -/
def run_with_timing (timeout : ℚ) (out : ProcOutcome) : ℚ × Bool × String :=
  match out with
  | .completed elapsed code stdout stderr => (elapsed, code == 0, stdout ++ stderr)
  | .timedOut => (timeout, false, "Timeout")
  | .faulted elapsed msg => (elapsed, false, msg)

/-- A value stored in a `BenchmarkResult`'s open metadata mapping: the Python
dict holds strings and numbers; `rnum` holds a real number (the one metadata
value that involves a square root, `stddev`). -/
inductive MetaVal
  | str (s : String)
  | num (q : ℚ)
  | rnum (x : ℝ)

/-- Read a numeric (rational) metadata value. -/
def metaNum : Option MetaVal → Option ℚ
  | some (MetaVal.num q) => some q
  | _ => none

/-- Read a real-valued metadata value. -/
def metaRnum : Option MetaVal → Option ℝ
  | some (MetaVal.rnum x) => some x
  | _ => none

/-- Embedding of the `BenchmarkResult` dataclass (perf-test.py lines 67-80),
with the source's field defaults; in particular `iterations` defaults to 1
and `error` to `None`. The open `dict` metadata becomes an association list. -/
structure BenchmarkResult where
  name : String
  real_time : ℚ
  cpu_time : ℚ := 0
  iterations : ℕ := 1
  time_unit : String := "s"
  items_per_second : ℚ := 0
  bytes_per_second : ℚ := 0
  memory_peak_mb : ℚ := 0
  error : Option String := none
  metadata : List (String × MetaVal) := []

/-- `(curr - base) / base * 100`, the percentage change computed by
`compare_reports` (line 879). -/
def change_pct (base curr : ℚ) : ℚ := (curr - base) / base * 100

/-- `abs(curr - base)`, the absolute change computed by `compare_reports`
(line 880). -/
def abs_change (base curr : ℚ) : ℚ := |curr - base|

/-- The three buckets `compare_reports` sorts a matched pair into. -/
inductive Classification
  | regression
  | improvement
  | unchanged
deriving DecidableEq

/-- The dual-threshold classification rule of `compare_reports`
(lines 884-889): regression iff `change_pct > 10` and `abs_change > 0.01`;
improvement iff `change_pct < -10` and `abs_change > 0.01`; otherwise
unchanged. -/
def classifyPair (base curr : ℚ) : Classification :=
  if change_pct base curr > 10 ∧ abs_change base curr > 1/100 then .regression
  else if change_pct base curr < -10 ∧ abs_change base curr > 1/100 then .improvement
  else .unchanged

/-- An entry of one of the three comparison lists built by `compare_reports`:
`(curr.name, base.real_time, curr.real_time, change_pct)`. -/
abbrev Entry := String × ℚ × ℚ × ℚ

/-- Embedding of `baseline_lookup = {b.name: b for b in baseline.benchmarks}`
(line 865): a Python dict comprehension keeps the last binding of each key,
so we search the reversed list. -/
def baseline_lookup (baseline : List BenchmarkResult) (nm : String) : Option BenchmarkResult :=
  baseline.reverse.find? (fun b => b.name == nm)

/-- Embedding of the classification loop of `compare_reports`
(lines 867-889): walk the current results in order; skip a result whose name
is not a key of the baseline lookup; skip a matched pair where either
`real_time` is 0; otherwise classify the pair into the regressions,
improvements, or unchanged list. (The source function additionally renders
these three lists into a text summary, which is presentation only.) -/
def compare_reports (lk : String → Option BenchmarkResult) :
    List BenchmarkResult → List Entry × List Entry × List Entry
  | [] => ([], [], [])
  | c :: rest =>
    let acc := compare_reports lk rest
    match lk c.name with
    | none => acc
    | some b =>
      if b.real_time = (0 : ℚ) ∨ c.real_time = (0 : ℚ) then acc
      else
        let e : Entry := (c.name, b.real_time, c.real_time, change_pct b.real_time c.real_time)
        match classifyPair b.real_time c.real_time with
        | .regression => (e :: acc.1, acc.2.1, acc.2.2)
        | .improvement => (acc.1, e :: acc.2.1, acc.2.2)
        | .unchanged => (acc.1, acc.2.1, e :: acc.2.2)

/-- The pairs `compare_reports` classifies, written directly from the spec's
characterization: exactly the current results whose name is a key of the
baseline lookup and where neither matched `real_time` is 0. -/
def classifiedOf (lk : String → Option BenchmarkResult) (current : List BenchmarkResult) :
    List Entry :=
  current.filterMap (fun c =>
    match lk c.name with
    | none => none
    | some b =>
      if b.real_time = (0 : ℚ) ∨ c.real_time = (0 : ℚ) then none
      else some (c.name, b.real_time, c.real_time, change_pct b.real_time c.real_time))

/-- `change_pct` with the division made explicit: `none` when the divisor
(the baseline `real_time`) is zero. Used to state that `compare_reports`
never divides by zero. -/
def change_pct_checked (base curr : ℚ) : Option ℚ :=
  if base = 0 then none else some ((curr - base) / base * 100)

/-- `compare_reports` with the division-by-zero case made an explicit
failure (`none`): identical control flow, but the percentage change is
computed with `change_pct_checked`. -/
def compare_reports_checked (lk : String → Option BenchmarkResult) :
    List BenchmarkResult → Option (List Entry × List Entry × List Entry)
  | [] => some ([], [], [])
  | c :: rest =>
    match compare_reports_checked lk rest with
    | none => none
    | some acc =>
      match lk c.name with
      | none => some acc
      | some b =>
        if b.real_time = (0 : ℚ) ∨ c.real_time = (0 : ℚ) then some acc
        else
          match change_pct_checked b.real_time c.real_time with
          | none => none
          | some pct =>
            let e : Entry := (c.name, b.real_time, c.real_time, pct)
            match classifyPair b.real_time c.real_time with
            | .regression => some (e :: acc.1, acc.2.1, acc.2.2)
            | .improvement => some (acc.1, e :: acc.2.1, acc.2.2)
            | .unchanged => some (acc.1, acc.2.1, e :: acc.2.2)

/-- Arithmetic mean, `statistics.mean`, of a list of durations. -/
def mean (l : List ℚ) : ℚ := l.sum / l.length

/-- Arithmetic mean of a list of natural-number counts (the auxiliary
result-count side channel). -/
def meanN (l : List ℕ) : ℚ := (l.map (fun n => (n : ℚ))).sum / l.length

/-- Python's `min` over a nonempty list (0 on the empty list, which the
source never queries). -/
def pyMin : List ℚ → ℚ
  | [] => 0
  | x :: xs => xs.foldl min x

/-- Python's `max` over a nonempty list (0 on the empty list, which the
source never queries). -/
def pyMax : List ℚ → ℚ
  | [] => 0
  | x :: xs => xs.foldl max x

/-- The sample variance `sum((x - mean)^2) / (n - 1)` underlying
`statistics.stdev`; only queried for lists of length at least 2. -/
def sampleVariance (l : List ℚ) : ℚ :=
  (l.map (fun x => (x - mean l) ^ 2)).sum / ((l.length : ℚ) - 1)

/-- `statistics.stdev`: the square root of the sample variance. -/
noncomputable def pyStdev (l : List ℚ) : ℝ := Real.sqrt (sampleVariance l)

/-- Round-half-to-even to the nearest integer: the rounding mode of Python's
built-in `round`. -/
def rhe {α : Type} [LinearOrderedField α] [FloorRing α] (x : α) : ℤ :=
  if x - ⌊x⌋ < 1/2 then ⌊x⌋
  else if x - ⌊x⌋ > 1/2 then ⌊x⌋ + 1
  else if ⌊x⌋ % 2 = 0 then ⌊x⌋ else ⌊x⌋ + 1

/-- Python's `round(x, d)`: round-half-to-even at `d` decimal digits. -/
def pyRound {α : Type} [LinearOrderedField α] [FloorRing α] (x : α) (d : ℕ) : α :=
  ((rhe (x * 10 ^ d) : ℤ) : α) / 10 ^ d

/-- The `stddev` metadata value of a search benchmark (perf-test.py line 349):
`round(statistics.stdev(times), 4)` when more than one trial succeeded,
else 0. -/
noncomputable def searchStddev (times : List ℚ) : ℝ :=
  if 1 < times.length then pyRound (pyStdev times) 4 else 0

/-- The durations of the successful trials of a search benchmark
(perf-test.py lines 314-321): each trial is one `run_with_timing` call with a
30-second timeout, and only successful trials contribute their duration. -/
def searchTimes (outs : List ProcOutcome) : List ℚ :=
  outs.filterMap (fun o =>
    if (run_with_timing 30 o).2.1 then some (run_with_timing 30 o).1 else none)

/-- The result counts extracted from the successful trials' output
(perf-test.py lines 322-330). `countOf` models the `json.loads`-based
extraction: `some n` when the output parses to a JSON list (its length) or
to an object with a `matches` list, `none` otherwise. -/
def searchCounts (countOf : String → Option ℕ) (outs : List ProcOutcome) : List ℕ :=
  outs.filterMap (fun o =>
    if (run_with_timing 30 o).2.1 then countOf (run_with_timing 30 o).2.2 else none)

/-- Embedding of `benchmark_search` (perf-test.py lines 307-352). The command
construction and subprocess execution are modelled by the per-iteration
outcomes `outs`; the JSON result-count extraction by `countOf`. If no trial
succeeded the result is `BenchmarkResult(name=..., real_time=0,
error="All iterations failed")` with every other field left at its dataclass
default; otherwise `real_time` is the mean of the successful durations,
`iterations` their number, and the metadata carries the pattern, repo, mode,
the 4-digit-rounded min, max and stddev of the durations, and the
1-digit-rounded average result count. -/
noncomputable def benchmark_search (repo_name pattern mode : String)
    (countOf : String → Option ℕ) (outs : List ProcOutcome) : BenchmarkResult :=
  if searchTimes outs = [] then
    { name := "search_" ++ mode ++ "/" ++ repo_name ++ "/" ++ pattern
      real_time := 0
      error := some "All iterations failed" }
  else
    { name := "search_" ++ mode ++ "/" ++ repo_name ++ "/" ++ pattern
      real_time := mean (searchTimes outs)
      iterations := (searchTimes outs).length
      metadata :=
        [("pattern", MetaVal.str pattern),
         ("repo", MetaVal.str repo_name),
         ("mode", MetaVal.str mode),
         ("min", MetaVal.num (pyRound (pyMin (searchTimes outs)) 4)),
         ("max", MetaVal.num (pyRound (pyMax (searchTimes outs)) 4)),
         ("stddev", MetaVal.rnum (searchStddev (searchTimes outs))),
         ("avg_results",
          MetaVal.num (if searchCounts countOf outs = [] then 0
                       else pyRound (meanN (searchCounts countOf outs)) 1))] }

/-- Embedding of `benchmark_index_repo` (perf-test.py lines 277-305): one
`run_with_timing` trial with a 300-second timeout; `file_count` and
`index_size` model the pre- and post-run filesystem probes. The result
always has `iterations = 1` and `real_time = duration`; on failure `error`
is the first 200 characters of the combined output; the throughput fields
are `count / duration` when the duration is positive, else 0. -/
def benchmark_index_repo (nm : String) (file_count index_size : ℕ)
    (out : ProcOutcome) : BenchmarkResult :=
  { name := "indexing/" ++ nm
    real_time := (run_with_timing 300 out).1
    iterations := 1
    items_per_second :=
      if (0 : ℚ) < (run_with_timing 300 out).1 then
        (file_count : ℚ) / (run_with_timing 300 out).1 else 0
    bytes_per_second :=
      if (0 : ℚ) < (run_with_timing 300 out).1 then
        (index_size : ℚ) / (run_with_timing 300 out).1 else 0
    error :=
      if (run_with_timing 300 out).2.1 then none
      else some ((run_with_timing 300 out).2.2.take 200)
    metadata :=
      [("files", MetaVal.num (file_count : ℚ)),
       ("repo", MetaVal.str nm),
       ("index_size_kb", MetaVal.num (pyRound ((index_size : ℚ) / 1024) 1))] }

/-- The search pattern catalog (perf-test.py line 61). -/
def SEARCH_PATTERNS : List String :=
  ["function", "export", "handler", "error", "async", "render", "parse", "interface"]

/-- Python's `x or default` applied to `os.cpu_count()`, whose value is
`None` or a count (falsy when 0). -/
def cpu_count_or (cpu : Option ℕ) (dflt : ℕ) : ℕ :=
  match cpu with
  | none => dflt
  | some n => if n = 0 then dflt else n

/-- Worker count of the `ProcessPoolExecutor` for parallel indexing
(perf-test.py line 588): `min(len(repos), os.cpu_count() or 4)`. -/
def indexing_pool_width (repo_count : ℕ) (cpu : Option ℕ) : ℕ :=
  min repo_count (cpu_count_or cpu 4)

/-- Worker count of the `ThreadPoolExecutor` for the parallel search
benchmarks (perf-test.py line 645): the constant 8. -/
def query_pool_width : ℕ := 8

/-- Worker count of the `ThreadPoolExecutor` for the stress test
(perf-test.py line 760): the constant 16. -/
def stress_pool_width : ℕ := 16

/-- The search benchmark batch built by `run_query_benchmarks`
(perf-test.py lines 636-641): for every repo and each of the first four
search patterns, one `symbols`-mode and one `semantic`-mode task. -/
def search_tasks (repos : List (String × String)) (iterations : ℕ) :
    List (String × String × String × String × ℕ) :=
  repos.flatMap (fun rp =>
    (SEARCH_PATTERNS.take 4).flatMap (fun pat =>
      [(rp.1, rp.2, pat, "symbols", iterations),
       (rp.1, rp.2, pat, "semantic", iterations)]))

/-- `result.metadata.get('repo', name)` (perf-test.py line 598). -/
def result_repo_name (m : List (String × MetaVal)) (dflt : String) : String :=
  match m.lookup "repo" with
  | some (MetaVal.str s) => s
  | _ => dflt

/-- Embedding of the `as_completed` collection loop of the parallel indexing
phase (perf-test.py lines 594-603). Each completed future either yields a
`BenchmarkResult` (`Except.ok`) or raised an exception (`Except.error`); an
ok result is renamed to `indexing_parallel/<repo>` and appended, while an
exception is only printed — nothing is appended for it — and the loop
continues with the remaining futures. -/
def collect_parallel_indexing :
    List (String × Except String BenchmarkResult) → List BenchmarkResult
  | [] => []
  | (_, Except.error _) :: rest => collect_parallel_indexing rest
  | (nm, Except.ok r) :: rest =>
    { r with name := "indexing_parallel/" ++ result_repo_name r.metadata nm } ::
      collect_parallel_indexing rest

theorem foldl_min_le_init (l : List ℚ) (a : ℚ) : l.foldl min a ≤ a := by
  induction l generalizing a with
  | nil => exact le_refl a
  | cons b t ih => exact le_trans (ih (min a b)) (min_le_left a b)

theorem foldl_min_le_mem (l : List ℚ) (a y : ℚ) (hy : y ∈ l) : l.foldl min a ≤ y := by
  induction l generalizing a with
  | nil => cases hy
  | cons b t ih =>
    rcases List.mem_cons.mp hy with h | h
    · subst h
      exact le_trans (foldl_min_le_init t (min a y)) (min_le_right a y)
    · exact ih (min a b) h

theorem pyMin_le_mem (l : List ℚ) (y : ℚ) (hy : y ∈ l) : pyMin l ≤ y := by
  match l, hy with
  | x :: xs, hy =>
    rcases List.mem_cons.mp hy with h | h
    · subst h
      exact foldl_min_le_init xs y
    · exact foldl_min_le_mem xs x y h

theorem init_le_foldl_max (l : List ℚ) (a : ℚ) : a ≤ l.foldl max a := by
  induction l generalizing a with
  | nil => exact le_refl a
  | cons b t ih => exact le_trans (le_max_left a b) (ih (max a b))

theorem mem_le_foldl_max (l : List ℚ) (a y : ℚ) (hy : y ∈ l) : y ≤ l.foldl max a := by
  induction l generalizing a with
  | nil => cases hy
  | cons b t ih =>
    rcases List.mem_cons.mp hy with h | h
    · subst h
      exact le_trans (le_max_right a y) (init_le_foldl_max t (max a y))
    · exact ih (max a b) h

theorem mem_le_pyMax (l : List ℚ) (y : ℚ) (hy : y ∈ l) : y ≤ pyMax l := by
  match l, hy with
  | x :: xs, hy =>
    rcases List.mem_cons.mp hy with h | h
    · subst h
      exact init_le_foldl_max xs y
    · exact mem_le_foldl_max xs x y h

theorem pyMin_le_mean (l : List ℚ) (h : l ≠ []) : pyMin l ≤ mean l := by
  have hsum : l.length • pyMin l ≤ l.sum :=
    List.card_nsmul_le_sum l (pyMin l) (fun x hx => pyMin_le_mem l x hx)
  have hlen : (0 : ℚ) < l.length := by
    exact_mod_cast List.length_pos.mpr h
  rw [mean, le_div_iff₀ hlen]
  calc pyMin l * l.length = l.length • pyMin l := by rw [nsmul_eq_mul]; ring
  _ ≤ l.sum := hsum

theorem mean_le_pyMax (l : List ℚ) (h : l ≠ []) : mean l ≤ pyMax l := by
  have hsum : l.sum ≤ l.length • pyMax l :=
    List.sum_le_card_nsmul l (pyMax l) (fun x hx => mem_le_pyMax l x hx)
  have hlen : (0 : ℚ) < l.length := by
    exact_mod_cast List.length_pos.mpr h
  rw [mean, div_le_iff₀ hlen]
  calc l.sum ≤ l.length • pyMax l := hsum
  _ = pyMax l * l.length := by rw [nsmul_eq_mul]; ring

theorem abs_rhe_sub_le {α : Type} [LinearOrderedField α] [FloorRing α] (x : α) :
    |(rhe x : α) - x| ≤ 1/2 := by
  have h1 : (⌊x⌋ : α) ≤ x := Int.floor_le x
  have h2 : x < ⌊x⌋ + 1 := Int.lt_floor_add_one x
  unfold rhe
  split_ifs with ha hb hc <;> rw [abs_le] <;> push_cast <;>
    exact ⟨by linarith, by linarith⟩

theorem abs_pyRound_sub_le {α : Type} [LinearOrderedField α] [FloorRing α]
    (x : α) (d : ℕ) : |pyRound x d - x| ≤ (1/2) / 10 ^ d := by
  have h10 : (0 : α) < 10 ^ d := by positivity
  have h := abs_rhe_sub_le (x * 10 ^ d)
  unfold pyRound
  rw [show ((rhe (x * 10 ^ d) : ℤ) : α) / 10 ^ d - x
      = (((rhe (x * 10 ^ d) : ℤ) : α) - x * 10 ^ d) / 10 ^ d by field_simp; ring,
    abs_div, abs_of_pos h10]
  exact div_le_div_of_nonneg_right h h10.le

theorem rhe_nonneg {α : Type} [LinearOrderedField α] [FloorRing α] {x : α}
    (h : 0 ≤ x) : 0 ≤ rhe x := by
  have hf : (0 : ℤ) ≤ ⌊x⌋ := Int.floor_nonneg.mpr h
  unfold rhe
  split_ifs <;> omega

theorem pyRound_nonneg {α : Type} [LinearOrderedField α] [FloorRing α] {x : α}
    (h : 0 ≤ x) (d : ℕ) : 0 ≤ pyRound x d := by
  unfold pyRound
  apply div_nonneg
  · exact_mod_cast rhe_nonneg (mul_nonneg h (by positivity))
  · positivity

theorem searchStddev_nonneg (times : List ℚ) : 0 ≤ searchStddev times := by
  unfold searchStddev
  split_ifs
  · exact pyRound_nonneg (Real.sqrt_nonneg _) 4
  · exact le_refl 0

theorem search_tasks_length (repos : List (String × String)) (it : ℕ) :
    (search_tasks repos it).length = 8 * repos.length := by
  induction repos with
  | nil => rfl
  | cons r rs ih =>
    have h8 : ((SEARCH_PATTERNS.take 4).flatMap (fun pat =>
        [(r.1, r.2, pat, "symbols", it), (r.1, r.2, pat, "semantic", it)])).length = 8 := rfl
    unfold search_tasks at ih ⊢
    rw [List.flatMap_cons, List.length_append, h8, ih, List.length_cons]
    ring

/-- C1: the Comparator classifies a matched pair as a regression iff
`change_pct > 10` and `abs_change > 0.01`, as an improvement iff
`change_pct < -10` and `abs_change > 0.01`, and as unchanged otherwise;
boundary checks: `change_pct = 10` exactly is unchanged, `change_pct = 10.1`
with `abs_change = 0.005` is unchanged, `change_pct = 15` with
`abs_change = 0.02` is a regression. -/
theorem comparator_dual_threshold_rule :
    (∀ base curr : ℚ,
      (classifyPair base curr = .regression ↔
        change_pct base curr > 10 ∧ abs_change base curr > 1/100) ∧
      (classifyPair base curr = .improvement ↔
        change_pct base curr < -10 ∧ abs_change base curr > 1/100) ∧
      (classifyPair base curr = .unchanged ↔
        ¬(change_pct base curr > 10 ∧ abs_change base curr > 1/100) ∧
        ¬(change_pct base curr < -10 ∧ abs_change base curr > 1/100)))
    ∧ classifyPair 1 (11/10) = .unchanged
    ∧ change_pct 1 (11/10) = 10
    ∧ classifyPair (5/101) (1101/20200) = .unchanged
    ∧ change_pct (5/101) (1101/20200) = 101/10
    ∧ abs_change (5/101) (1101/20200) = 1/200
    ∧ classifyPair (2/15) (23/150) = .regression
    ∧ change_pct (2/15) (23/150) = 15
    ∧ abs_change (2/15) (23/150) = 1/50 := by
  have habs1 : abs_change (5/101) (1101/20200) = 1/200 := by
    rw [abs_change, show (1101/20200 : ℚ) - 5/101 = 1/200 by norm_num,
      abs_of_nonneg (by norm_num)]
  have habs2 : abs_change (2/15) (23/150) = 1/50 := by
    rw [abs_change, show (23/150 : ℚ) - 2/15 = 1/50 by norm_num,
      abs_of_nonneg (by norm_num)]
  refine ⟨fun base curr => ?_, ?_, by rw [change_pct]; norm_num, ?_,
    by rw [change_pct]; norm_num, habs1, ?_, by rw [change_pct]; norm_num, habs2⟩
  · by_cases h1 : change_pct base curr > 10 ∧ abs_change base curr > 1/100
    · unfold classifyPair
      rw [if_pos h1]
      exact ⟨⟨fun _ => h1, fun _ => rfl⟩,
        ⟨(fun h => nomatch h), fun hc => absurd hc.1 (by linarith [h1.1])⟩,
        ⟨(fun h => nomatch h), fun hn => absurd h1 hn.1⟩⟩
    · by_cases h2 : change_pct base curr < -10 ∧ abs_change base curr > 1/100
      · unfold classifyPair
        rw [if_neg h1, if_pos h2]
        exact ⟨⟨(fun h => nomatch h), fun hc => absurd hc h1⟩,
          ⟨fun _ => h2, fun _ => rfl⟩,
          ⟨(fun h => nomatch h), fun hn => absurd h2 hn.2⟩⟩
      · unfold classifyPair
        rw [if_neg h1, if_neg h2]
        exact ⟨⟨(fun h => nomatch h), fun hc => absurd hc h1⟩,
          ⟨(fun h => nomatch h), fun hc => absurd hc h2⟩,
          ⟨fun _ => ⟨h1, h2⟩, fun _ => rfl⟩⟩
  · unfold classifyPair
    rw [if_neg, if_neg]
    · rintro ⟨h, -⟩
      rw [change_pct] at h
      norm_num at h
    · rintro ⟨h, -⟩
      rw [change_pct] at h
      norm_num at h
  · unfold classifyPair
    rw [if_neg, if_neg]
    · rintro ⟨-, h⟩
      rw [habs1] at h
      norm_num at h
    · rintro ⟨-, h⟩
      rw [habs1] at h
      norm_num at h
  · unfold classifyPair
    rw [if_pos]
    refine ⟨by rw [change_pct]; norm_num, ?_⟩
    rw [habs2]
    norm_num

/-- C7: `run_with_timing` returns `(timeout_seconds, false, "Timeout")` when
the process does not exit within the timeout (duration pinned to the timeout
ceiling), `(actual_elapsed, false, stringified_error)` on any other fault,
and `(elapsed, exit_code == 0, stdout ++ stderr)` on normal exit. -/
theorem run_with_timing_contract (t e : ℚ) (code : ℤ) (o err m : String) :
    run_with_timing t ProcOutcome.timedOut = (t, false, "Timeout")
    ∧ run_with_timing t (ProcOutcome.faulted e m) = (e, false, m)
    ∧ run_with_timing t (ProcOutcome.completed e code o err) = (e, code == 0, o ++ err)
    ∧ ((run_with_timing t (ProcOutcome.completed e code o err)).2.1 = true ↔ code = 0) := by
  refine ⟨rfl, rfl, rfl, ?_⟩
  simp [run_with_timing]

/-- C9 (amended): in the parallel indexing batch, one future's exception
neither aborts the batch nor removes any sibling's result — the collected
result list is exactly the siblings' results — but the failing task
contributes nothing at all to the result list (it is only printed). -/
theorem parallel_failure_isolation (xs ys : List (String × Except String BenchmarkResult))
    (nm msg : String) :
    collect_parallel_indexing (xs ++ (nm, Except.error msg) :: ys)
      = collect_parallel_indexing xs ++ collect_parallel_indexing ys := by
  induction xs with
  | nil => simp [collect_parallel_indexing]
  | cons x rest ih =>
    obtain ⟨n, o⟩ := x
    cases o <;> simp [collect_parallel_indexing, ih]

/-- C9 counterexample: a worker exception for task `a` is not recorded as a
failed Result under `a`'s name — the batch's result list contains only the
successful sibling, renamed to `indexing_parallel/b`. -/
theorem parallel_failure_not_recorded_ce :
    (collect_parallel_indexing
      [("a", Except.error "boom"),
       ("b", Except.ok (benchmark_index_repo "b" 10 1000
          (ProcOutcome.completed 2 0 "out" "")))]).map BenchmarkResult.name
      = ["indexing_parallel/b"]
    ∧ (collect_parallel_indexing
      [("a", Except.error "boom"),
       ("b", Except.ok (benchmark_index_repo "b" 10 1000
          (ProcOutcome.completed 2 0 "out" "")))]).length = 1 := ⟨rfl, rfl⟩

/-- C2 (amended): when every trial of a search benchmark fails, the result
has `real_time = 0`, the error string "All iterations failed", and empty
metadata, but `iterations` is left at the dataclass default 1, not 0. -/
theorem search_all_failed_result (rn p md : String) (cf : String → Option ℕ)
    (outs : List ProcOutcome) (h : searchTimes outs = []) :
    (benchmark_search rn p md cf outs).real_time = 0
    ∧ (benchmark_search rn p md cf outs).iterations = 1
    ∧ (benchmark_search rn p md cf outs).error = some "All iterations failed"
    ∧ (benchmark_search rn p md cf outs).metadata = [] := by
  unfold benchmark_search
  rw [if_pos h]
  exact ⟨rfl, rfl, rfl, rfl⟩

theorem search_all_failed_result_witness :
    searchTimes [ProcOutcome.timedOut] = []
    ∧ ((benchmark_search "r" "p" "symbols" (fun _ => none) [ProcOutcome.timedOut]).real_time = 0
      ∧ (benchmark_search "r" "p" "symbols" (fun _ => none) [ProcOutcome.timedOut]).iterations = 1
      ∧ (benchmark_search "r" "p" "symbols" (fun _ => none) [ProcOutcome.timedOut]).error
          = some "All iterations failed"
      ∧ (benchmark_search "r" "p" "symbols" (fun _ => none) [ProcOutcome.timedOut]).metadata = []) :=
  ⟨rfl, search_all_failed_result "r" "p" "symbols" (fun _ => none) [ProcOutcome.timedOut] rfl⟩

/-- C2 counterexample: on an all-failed search task the result's `iterations`
is 1 (the dataclass default), not 0 as claimed. -/
theorem search_all_failed_iterations_ce :
    (benchmark_search "r" "p" "symbols" (fun _ => none) [ProcOutcome.timedOut]).iterations = 1
    ∧ (benchmark_search "r" "p" "symbols" (fun _ => none) [ProcOutcome.timedOut]).iterations ≠ 0
    ∧ (benchmark_search "r" "p" "symbols" (fun _ => none) [ProcOutcome.timedOut]).real_time = 0
    ∧ (benchmark_search "r" "p" "symbols" (fun _ => none) [ProcOutcome.timedOut]).error
        = some "All iterations failed" := ⟨rfl, by decide, rfl, rfl⟩

/-- C8 (amended): `benchmark_index_repo`'s error is absent iff its single
trial succeeded, and its `real_time` is always the measured duration — so a
failed indexing result carries a non-empty error together with a nonzero
`real_time`. For `benchmark_search`, error is absent iff some trial
succeeded, and an all-failed result has `real_time = 0`. -/
theorem result_error_consistency (nm : String) (fc isz : ℕ) (out : ProcOutcome)
    (rn p md : String) (cf : String → Option ℕ) (outs : List ProcOutcome) :
    ((benchmark_index_repo nm fc isz out).error = none
      ↔ (run_with_timing 300 out).2.1 = true)
    ∧ (benchmark_index_repo nm fc isz out).real_time = (run_with_timing 300 out).1
    ∧ ((benchmark_search rn p md cf outs).error = none ↔ searchTimes outs ≠ [])
    ∧ (searchTimes outs = [] → (benchmark_search rn p md cf outs).real_time = 0) := by
  refine ⟨?_, rfl, ?_, fun hT => by unfold benchmark_search; rw [if_pos hT]⟩
  · unfold benchmark_index_repo
    cases hs : (run_with_timing 300 out).2.1 <;> simp [hs]
  · by_cases hT : searchTimes outs = []
    · simp [benchmark_search, hT]
    · simp [benchmark_search, hT]

theorem result_error_consistency_witness :
    ((benchmark_index_repo "r" 10 1000 ProcOutcome.timedOut).error = none
      ↔ (run_with_timing 300 ProcOutcome.timedOut).2.1 = true)
    ∧ (benchmark_index_repo "r" 10 1000 ProcOutcome.timedOut).real_time
        = (run_with_timing 300 ProcOutcome.timedOut).1
    ∧ ((benchmark_search "r" "p" "symbols" (fun _ => none)
        [ProcOutcome.timedOut]).error = none ↔ searchTimes [ProcOutcome.timedOut] ≠ [])
    ∧ (searchTimes [ProcOutcome.timedOut] = [] →
        (benchmark_search "r" "p" "symbols" (fun _ => none)
          [ProcOutcome.timedOut]).real_time = 0) :=
  result_error_consistency "r" 10 1000 ProcOutcome.timedOut "r" "p" "symbols"
    (fun _ => none) [ProcOutcome.timedOut]

/-- C8 counterexample: a timed-out indexing trial yields a result whose
error is the non-empty string "Timeout" while `real_time` is 300 (the
timeout ceiling), not 0 — refuting "a Result with a non-empty error has
real_time 0". -/
theorem index_error_nonzero_time_ce :
    (benchmark_index_repo "r" 10 1000 ProcOutcome.timedOut).error = some "Timeout"
    ∧ (benchmark_index_repo "r" 10 1000 ProcOutcome.timedOut).real_time = 300
    ∧ (benchmark_index_repo "r" 10 1000 ProcOutcome.timedOut).real_time ≠ 0 := by
  refine ⟨rfl, rfl, ?_⟩
  rw [show (benchmark_index_repo "r" 10 1000 ProcOutcome.timedOut).real_time
      = 300 from rfl]
  norm_num

/-- C4 counterexample: with one repo there are 8 search tasks, and on a
4-way host `min(item_count, host_parallelism)` is 4, yet the query thread
pool is the fixed constant 8 — the thread pool width is not
`min(item_count, host_parallelism)`. -/
theorem pool_width_min_ce :
    (search_tasks [("r", "/r")] 5).length = 8
    ∧ cpu_count_or (some 4) 4 = 4
    ∧ query_pool_width ≠ min (search_tasks [("r", "/r")] 5).length (cpu_count_or (some 4) 4) := by
  refine ⟨rfl, rfl, ?_⟩
  decide

/-- C4 (amended): only the process-isolated indexing pool has width
`min(repo_count, os.cpu_count() or 4)` — bounded by both the item count and
the reported host parallelism. The shared-memory thread pools use fixed
widths (8 for the query batch, 16 for the stress test) independent of item
count and host parallelism; the query batch always holds at least 8 tasks
when any repo is present, so that pool is still no wider than its item
count. -/
theorem pool_width_policy (n : ℕ) (cpu : Option ℕ) (repos : List (String × String)) (it : ℕ) :
    indexing_pool_width n cpu = min n (cpu_count_or cpu 4)
    ∧ indexing_pool_width n cpu ≤ n
    ∧ indexing_pool_width n cpu ≤ cpu_count_or cpu 4
    ∧ query_pool_width = 8
    ∧ stress_pool_width = 16
    ∧ (repos ≠ [] → query_pool_width ≤ (search_tasks repos it).length) := by
  refine ⟨rfl, Nat.min_le_left _ _, Nat.min_le_right _ _, rfl, rfl, fun hne => ?_⟩
  rw [search_tasks_length]
  have h1 : 1 ≤ repos.length := List.length_pos.mpr hne
  show 8 ≤ 8 * repos.length
  omega

theorem pool_width_policy_witness :
    indexing_pool_width 3 (some 4) = min 3 (cpu_count_or (some 4) 4)
    ∧ indexing_pool_width 3 (some 4) ≤ 3
    ∧ indexing_pool_width 3 (some 4) ≤ cpu_count_or (some 4) 4
    ∧ query_pool_width = 8
    ∧ stress_pool_width = 16
    ∧ query_pool_width ≤ (search_tasks [("r", "/r")] 5).length := by
  have h := pool_width_policy 3 (some 4) [("r", "/r")] 5
  exact ⟨h.1, h.2.1, h.2.2.1, h.2.2.2.1, h.2.2.2.2.1,
    h.2.2.2.2.2 (by decide)⟩

/-- C5 counterexample: baseline 1 s, current 1.11 s is a regression
(change_pct = 11, abs_change = 0.11), but with the reports exchanged the
change_pct is -1100/111 (about -9.91), which does not pass the -10
threshold: the swapped pair is unchanged, not an improvement. -/
theorem comparator_swap_ce :
    classifyPair 1 (111/100) = Classification.regression
    ∧ classifyPair (111/100) 1 = Classification.unchanged
    ∧ classifyPair (111/100) 1 ≠ Classification.improvement := by
  have habs : abs_change 1 (111/100) = 11/100 := by
    rw [abs_change, show (111/100 : ℚ) - 1 = 11/100 by norm_num,
      abs_of_nonneg (by norm_num)]
  have hreg : classifyPair 1 (111/100) = Classification.regression := by
    unfold classifyPair
    rw [if_pos ⟨by rw [change_pct]; norm_num, by rw [habs]; norm_num⟩]
  have hunch : classifyPair (111/100) 1 = Classification.unchanged := by
    unfold classifyPair
    rw [if_neg, if_neg]
    · rintro ⟨h, -⟩
      rw [change_pct] at h
      norm_num at h
    · rintro ⟨h, -⟩
      rw [change_pct] at h
      norm_num at h
  refine ⟨hreg, hunch, ?_⟩
  rw [hunch]
  exact fun h => nomatch h

/-- C5 (amended): for positive measurements, only one direction of the
claimed symmetry holds: a pair classified as an improvement becomes a
regression when current and baseline are exchanged (the absolute-change
floor is symmetric, and `change_pct < -10` against the larger denominator
forces more than +10% against the smaller one). The converse fails, as the
counterexample shows, because `change_pct` always divides by the baseline. -/
theorem comparator_swap_improvement_regression (base curr : ℚ)
    (hb : 0 < base) (hc : 0 < curr)
    (h : classifyPair base curr = Classification.improvement) :
    classifyPair curr base = Classification.regression := by
  unfold classifyPair at h
  split_ifs at h with h1 h2
  have h2a := h2.1
  rw [change_pct, div_mul_eq_mul_div, div_lt_iff₀ hb] at h2a
  have habs : abs_change curr base > 1/100 := by
    rw [abs_change, abs_sub_comm]
    exact h2.2
  have hgt : change_pct curr base > 10 := by
    rw [change_pct, div_mul_eq_mul_div, gt_iff_lt, lt_div_iff₀ hc]
    nlinarith
  unfold classifyPair
  rw [if_pos ⟨hgt, habs⟩]

theorem comparator_swap_improvement_regression_witness :
    (0 : ℚ) < 1 ∧ (0 : ℚ) < 1/2
    ∧ classifyPair 1 (1/2) = Classification.improvement
    ∧ classifyPair (1/2) 1 = Classification.regression := by
  have habs : abs_change 1 (1/2) = 1/2 := by
    rw [abs_change, show (1/2 : ℚ) - 1 = -(1/2) by norm_num, abs_neg,
      abs_of_nonneg (by norm_num)]
  have himp : classifyPair 1 (1/2) = Classification.improvement := by
    unfold classifyPair
    rw [if_neg, if_pos ⟨by rw [change_pct]; norm_num, by rw [habs]; norm_num⟩]
    rintro ⟨h, -⟩
    rw [change_pct] at h
    norm_num at h
  exact ⟨by norm_num, by norm_num, himp,
    comparator_swap_improvement_regression 1 (1/2) (by norm_num) (by norm_num) himp⟩

theorem compare_reports_cons_none {lk : String → Option BenchmarkResult}
    {c : BenchmarkResult} {rest : List BenchmarkResult} (h : lk c.name = none) :
    compare_reports lk (c :: rest) = compare_reports lk rest := by
  simp [compare_reports, h]

theorem compare_reports_cons_skip {lk : String → Option BenchmarkResult}
    {c b : BenchmarkResult} {rest : List BenchmarkResult} (h : lk c.name = some b)
    (hz : b.real_time = (0 : ℚ) ∨ c.real_time = (0 : ℚ)) :
    compare_reports lk (c :: rest) = compare_reports lk rest := by
  simp [compare_reports, h, hz]

theorem compare_reports_cons_reg {lk : String → Option BenchmarkResult}
    {c b : BenchmarkResult} {rest : List BenchmarkResult} (h : lk c.name = some b)
    (hz : ¬(b.real_time = (0 : ℚ) ∨ c.real_time = (0 : ℚ)))
    (hcl : classifyPair b.real_time c.real_time = Classification.regression) :
    compare_reports lk (c :: rest) =
      ((c.name, b.real_time, c.real_time, change_pct b.real_time c.real_time)
          :: (compare_reports lk rest).1,
        (compare_reports lk rest).2.1, (compare_reports lk rest).2.2) := by
  simp [compare_reports, h, hz, hcl]

theorem compare_reports_cons_imp {lk : String → Option BenchmarkResult}
    {c b : BenchmarkResult} {rest : List BenchmarkResult} (h : lk c.name = some b)
    (hz : ¬(b.real_time = (0 : ℚ) ∨ c.real_time = (0 : ℚ)))
    (hcl : classifyPair b.real_time c.real_time = Classification.improvement) :
    compare_reports lk (c :: rest) =
      ((compare_reports lk rest).1,
        (c.name, b.real_time, c.real_time, change_pct b.real_time c.real_time)
          :: (compare_reports lk rest).2.1,
        (compare_reports lk rest).2.2) := by
  simp [compare_reports, h, hz, hcl]

theorem compare_reports_cons_unch {lk : String → Option BenchmarkResult}
    {c b : BenchmarkResult} {rest : List BenchmarkResult} (h : lk c.name = some b)
    (hz : ¬(b.real_time = (0 : ℚ) ∨ c.real_time = (0 : ℚ)))
    (hcl : classifyPair b.real_time c.real_time = Classification.unchanged) :
    compare_reports lk (c :: rest) =
      ((compare_reports lk rest).1, (compare_reports lk rest).2.1,
        (c.name, b.real_time, c.real_time, change_pct b.real_time c.real_time)
          :: (compare_reports lk rest).2.2) := by
  simp [compare_reports, h, hz, hcl]

theorem classifiedOf_cons_none {lk : String → Option BenchmarkResult}
    {c : BenchmarkResult} {rest : List BenchmarkResult} (h : lk c.name = none) :
    classifiedOf lk (c :: rest) = classifiedOf lk rest := by
  simp [classifiedOf, h]

theorem classifiedOf_cons_skip {lk : String → Option BenchmarkResult}
    {c b : BenchmarkResult} {rest : List BenchmarkResult} (h : lk c.name = some b)
    (hz : b.real_time = (0 : ℚ) ∨ c.real_time = (0 : ℚ)) :
    classifiedOf lk (c :: rest) = classifiedOf lk rest := by
  simp [classifiedOf, h, hz]

theorem classifiedOf_cons_entry {lk : String → Option BenchmarkResult}
    {c b : BenchmarkResult} {rest : List BenchmarkResult} (h : lk c.name = some b)
    (hz : ¬(b.real_time = (0 : ℚ) ∨ c.real_time = (0 : ℚ))) :
    classifiedOf lk (c :: rest) =
      (c.name, b.real_time, c.real_time, change_pct b.real_time c.real_time)
        :: classifiedOf lk rest := by
  simp [classifiedOf, h, hz]

theorem mem_compare_reports_iff (lk : String → Option BenchmarkResult)
    (current : List BenchmarkResult) (e : Entry) :
    (e ∈ (compare_reports lk current).1 ∨ e ∈ (compare_reports lk current).2.1 ∨
      e ∈ (compare_reports lk current).2.2) ↔ e ∈ classifiedOf lk current := by
  induction current with
  | nil => simp [compare_reports, classifiedOf]
  | cons c rest ih =>
    cases hlk : lk c.name with
    | none =>
      rw [compare_reports_cons_none hlk, classifiedOf_cons_none hlk]
      exact ih
    | some b =>
      by_cases hz : b.real_time = (0 : ℚ) ∨ c.real_time = (0 : ℚ)
      · rw [compare_reports_cons_skip hlk hz, classifiedOf_cons_skip hlk hz]
        exact ih
      · rw [classifiedOf_cons_entry hlk hz, List.mem_cons, ← ih]
        cases hcl : classifyPair b.real_time c.real_time with
        | regression =>
          rw [compare_reports_cons_reg hlk hz hcl]
          simp only [List.mem_cons]
          tauto
        | improvement =>
          rw [compare_reports_cons_imp hlk hz hcl]
          simp only [List.mem_cons]
          tauto
        | unchanged =>
          rw [compare_reports_cons_unch hlk hz hcl]
          simp only [List.mem_cons]
          tauto

/-- C6: the Comparator classifies exactly the current results whose name is
a key of the baseline lookup and whose matched pair has both `real_time`
values nonzero (`classifiedOf` states those two guards verbatim); a name is
a key of the baseline lookup iff some baseline result bears it. Unmatched
results on either side and zero-time pairs contribute to none of the three
lists. -/
theorem comparator_join_and_skip (baseline current : List BenchmarkResult) (e : Entry) :
    ((e ∈ (compare_reports (baseline_lookup baseline) current).1 ∨
      e ∈ (compare_reports (baseline_lookup baseline) current).2.1 ∨
      e ∈ (compare_reports (baseline_lookup baseline) current).2.2) ↔
      e ∈ classifiedOf (baseline_lookup baseline) current)
    ∧ (∀ nm, (baseline_lookup baseline nm).isSome ↔ ∃ b ∈ baseline, b.name = nm) := by
  refine ⟨mem_compare_reports_iff _ _ _, fun nm => ?_⟩
  rw [baseline_lookup, List.find?_isSome]
  constructor
  · rintro ⟨b, hb, hbn⟩
    exact ⟨b, List.mem_reverse.mp hb, by simpa using hbn⟩
  · rintro ⟨b, hb, hbn⟩
    exact ⟨b, List.mem_reverse.mpr hb, by simpa using hbn⟩

/-- C10: the division by the baseline `real_time` in `compare_reports` is
never a division by zero: the variant whose division fails explicitly on a
zero divisor succeeds on every input and computes the same three lists,
because the zero-time guard precedes the division. -/
theorem compare_reports_no_division_by_zero (lk : String → Option BenchmarkResult)
    (current : List BenchmarkResult) :
    compare_reports_checked lk current = some (compare_reports lk current) := by
  induction current with
  | nil => rfl
  | cons c rest ih =>
    cases hlk : lk c.name with
    | none =>
      simp [compare_reports_checked, compare_reports, ih, hlk]
    | some b =>
      by_cases hz : b.real_time = (0 : ℚ) ∨ c.real_time = (0 : ℚ)
      · simp [compare_reports_checked, compare_reports, ih, hlk, hz]
      · have hb : b.real_time ≠ 0 := fun hb0 => hz (Or.inl hb0)
        have hc0 : c.real_time ≠ 0 := fun hc1 => hz (Or.inr hc1)
        cases hcl : classifyPair b.real_time c.real_time <;>
          simp [compare_reports_checked, compare_reports, ih, hlk, hz, hcl,
            change_pct_checked, hb, hc0, change_pct]

theorem benchmark_search_success (rn p md : String) (cf : String → Option ℕ)
    (outs : List ProcOutcome) (h : searchTimes outs ≠ []) :
    benchmark_search rn p md cf outs =
      { name := "search_" ++ md ++ "/" ++ rn ++ "/" ++ p
        real_time := mean (searchTimes outs)
        iterations := (searchTimes outs).length
        metadata :=
          [("pattern", MetaVal.str p),
           ("repo", MetaVal.str rn),
           ("mode", MetaVal.str md),
           ("min", MetaVal.num (pyRound (pyMin (searchTimes outs)) 4)),
           ("max", MetaVal.num (pyRound (pyMax (searchTimes outs)) 4)),
           ("stddev", MetaVal.rnum (searchStddev (searchTimes outs))),
           ("avg_results",
            MetaVal.num (if searchCounts cf outs = [] then 0
                         else pyRound (meanN (searchCounts cf outs)) 1))] } := by
  unfold benchmark_search
  rw [if_neg h]

/-- C3 (amended): for a search result with successful trials, `real_time` is
the exact mean of the successful durations and lies between their unrounded
minimum and maximum; the metadata stores that minimum and maximum rounded to
4 decimal digits, so they bound `real_time` only up to a 0.00005 rounding
slack (the stored min can exceed `real_time`, as the counterexample shows);
the stored stddev is nonnegative and is 0 when exactly one trial
succeeded. -/
theorem search_stats_bounds (rn p md : String) (cf : String → Option ℕ)
    (outs : List ProcOutcome) (h : searchTimes outs ≠ []) :
    (benchmark_search rn p md cf outs).real_time = mean (searchTimes outs)
    ∧ pyMin (searchTimes outs) ≤ (benchmark_search rn p md cf outs).real_time
    ∧ (benchmark_search rn p md cf outs).real_time ≤ pyMax (searchTimes outs)
    ∧ metaNum ((benchmark_search rn p md cf outs).metadata.lookup "min")
        = some (pyRound (pyMin (searchTimes outs)) 4)
    ∧ metaNum ((benchmark_search rn p md cf outs).metadata.lookup "max")
        = some (pyRound (pyMax (searchTimes outs)) 4)
    ∧ pyRound (pyMin (searchTimes outs)) 4
        ≤ (benchmark_search rn p md cf outs).real_time + 1/20000
    ∧ (benchmark_search rn p md cf outs).real_time
        ≤ pyRound (pyMax (searchTimes outs)) 4 + 1/20000
    ∧ metaRnum ((benchmark_search rn p md cf outs).metadata.lookup "stddev")
        = some (searchStddev (searchTimes outs))
    ∧ 0 ≤ searchStddev (searchTimes outs)
    ∧ ((searchTimes outs).length = 1 → searchStddev (searchTimes outs) = 0) := by
  rw [benchmark_search_success rn p md cf outs h]
  have hmin := pyMin_le_mean (searchTimes outs) h
  have hmax := mean_le_pyMax (searchTimes outs) h
  have hbmin := abs_le.mp (abs_pyRound_sub_le (pyMin (searchTimes outs)) 4)
  have hbmax := abs_le.mp (abs_pyRound_sub_le (pyMax (searchTimes outs)) 4)
  have hq : ((1 : ℚ)/2) / 10 ^ 4 = 1/20000 := by norm_num
  refine ⟨rfl, hmin, hmax, rfl, rfl, ?_, ?_, rfl, searchStddev_nonneg _, fun h1 => ?_⟩
  · have := hbmin.2
    rw [hq] at this
    show pyRound (pyMin (searchTimes outs)) 4 ≤ mean (searchTimes outs) + 1/20000
    linarith
  · have := hbmax.1
    rw [hq] at this
    show mean (searchTimes outs) ≤ pyRound (pyMax (searchTimes outs)) 4 + 1/20000
    linarith
  · unfold searchStddev
    rw [h1]
    simp

theorem search_stats_bounds_witness :
    searchTimes [ProcOutcome.completed (1/10) 0 "" "",
      ProcOutcome.completed (3/10) 0 "" ""] ≠ []
    ∧ ((benchmark_search "r" "p" "symbols" (fun _ => none)
        [ProcOutcome.completed (1/10) 0 "" "", ProcOutcome.completed (3/10) 0 "" ""]).real_time
        = mean (searchTimes [ProcOutcome.completed (1/10) 0 "" "",
            ProcOutcome.completed (3/10) 0 "" ""])
      ∧ pyMin (searchTimes [ProcOutcome.completed (1/10) 0 "" "",
            ProcOutcome.completed (3/10) 0 "" ""])
          ≤ (benchmark_search "r" "p" "symbols" (fun _ => none)
            [ProcOutcome.completed (1/10) 0 "" "",
             ProcOutcome.completed (3/10) 0 "" ""]).real_time
      ∧ (benchmark_search "r" "p" "symbols" (fun _ => none)
            [ProcOutcome.completed (1/10) 0 "" "",
             ProcOutcome.completed (3/10) 0 "" ""]).real_time
          ≤ pyMax (searchTimes [ProcOutcome.completed (1/10) 0 "" "",
              ProcOutcome.completed (3/10) 0 "" ""])
      ∧ metaNum ((benchmark_search "r" "p" "symbols" (fun _ => none)
            [ProcOutcome.completed (1/10) 0 "" "",
             ProcOutcome.completed (3/10) 0 "" ""]).metadata.lookup "min")
          = some (pyRound (pyMin (searchTimes [ProcOutcome.completed (1/10) 0 "" "",
              ProcOutcome.completed (3/10) 0 "" ""])) 4)
      ∧ metaNum ((benchmark_search "r" "p" "symbols" (fun _ => none)
            [ProcOutcome.completed (1/10) 0 "" "",
             ProcOutcome.completed (3/10) 0 "" ""]).metadata.lookup "max")
          = some (pyRound (pyMax (searchTimes [ProcOutcome.completed (1/10) 0 "" "",
              ProcOutcome.completed (3/10) 0 "" ""])) 4)
      ∧ pyRound (pyMin (searchTimes [ProcOutcome.completed (1/10) 0 "" "",
            ProcOutcome.completed (3/10) 0 "" ""])) 4
          ≤ (benchmark_search "r" "p" "symbols" (fun _ => none)
            [ProcOutcome.completed (1/10) 0 "" "",
             ProcOutcome.completed (3/10) 0 "" ""]).real_time + 1/20000
      ∧ (benchmark_search "r" "p" "symbols" (fun _ => none)
            [ProcOutcome.completed (1/10) 0 "" "",
             ProcOutcome.completed (3/10) 0 "" ""]).real_time
          ≤ pyRound (pyMax (searchTimes [ProcOutcome.completed (1/10) 0 "" "",
              ProcOutcome.completed (3/10) 0 "" ""])) 4 + 1/20000
      ∧ metaRnum ((benchmark_search "r" "p" "symbols" (fun _ => none)
            [ProcOutcome.completed (1/10) 0 "" "",
             ProcOutcome.completed (3/10) 0 "" ""]).metadata.lookup "stddev")
          = some (searchStddev (searchTimes [ProcOutcome.completed (1/10) 0 "" "",
              ProcOutcome.completed (3/10) 0 "" ""]))
      ∧ 0 ≤ searchStddev (searchTimes [ProcOutcome.completed (1/10) 0 "" "",
            ProcOutcome.completed (3/10) 0 "" ""])
      ∧ ((searchTimes [ProcOutcome.completed (1/10) 0 "" "",
            ProcOutcome.completed (3/10) 0 "" ""]).length = 1 →
          searchStddev (searchTimes [ProcOutcome.completed (1/10) 0 "" "",
            ProcOutcome.completed (3/10) 0 "" ""]) = 0)) :=
  ⟨by decide, search_stats_bounds "r" "p" "symbols" (fun _ => none)
    [ProcOutcome.completed (1/10) 0 "" "", ProcOutcome.completed (3/10) 0 "" ""]
    (by decide)⟩

/-- C3 counterexample: a single successful trial of 0.10006 s gives
`real_time = 0.10006` but a stored metadata min of `round(0.10006, 4)
= 0.1001`, which is strictly greater than `real_time` — refuting the claimed
`min <= real_time` for the stored metadata values. -/
theorem search_stats_rounding_ce :
    metaNum ((benchmark_search "r" "p" "symbols" (fun _ => none)
        [ProcOutcome.completed (10006/100000) 0 "" ""]).metadata.lookup "min")
      = some (pyRound (10006/100000 : ℚ) 4)
    ∧ pyRound (10006/100000 : ℚ) 4 = 1001/10000
    ∧ (benchmark_search "r" "p" "symbols" (fun _ => none)
        [ProcOutcome.completed (10006/100000) 0 "" ""]).real_time = 10006/100000
    ∧ (10006/100000 : ℚ) < 1001/10000 := by
  refine ⟨rfl, ?_, ?_, by norm_num⟩
  · have hx : (10006/100000 : ℚ) * 10 ^ 4 = 10006/10 := by norm_num
    have hfl : (⌊(10006 : ℚ)/10⌋ : ℤ) = 1000 := by norm_num [Int.floor_eq_iff]
    unfold pyRound rhe
    rw [hx, hfl]
    norm_num
  · have hT : searchTimes [ProcOutcome.completed (10006/100000) 0 "" ""]
        = [10006/100000] := rfl
    rw [show (benchmark_search "r" "p" "symbols" (fun _ => none)
        [ProcOutcome.completed (10006/100000) 0 "" ""]).real_time
        = mean (searchTimes [ProcOutcome.completed (10006/100000) 0 "" ""]) from rfl, hT]
    simp [mean]

end PerfTest
